import Mathlib

/-!
Shallow embedding of the `cloud_optimized_dicom` series packer
(`appender.py`, `cod_object.py`, `locker.py`, `series_metadata.py`,
`instance.py`, `utils.py`) and proofs settling the claims C1..C10.

Modelling conventions, used throughout:

* Python exceptions are modelled with `Except PyErr`; a raised exception is
  `.error e`, a normal return is `.ok v`.  Because the model is pure, a call
  that returns `.error` performs no state mutation unless the partially
  mutated state is returned explicitly.
* Instance-level I/O (fetching the file, parsing it with pydicom, hashing its
  bytes, writing it into the tar) is not reproduced byte for byte.  Instead
  every `Instance` record carries, next to the dataclass fields of
  `instance.py`, the outcome of that I/O: the `true*` fields are the values
  `Instance.validate()` would read from the file, `validateOk` says whether
  `fetch`/`validate` succeeds (a `False` covers fetch failures, non-DICOM
  data and hint mismatches alike), `tarOk` whether `append_to_series_tar`
  succeeds, `extractOk` whether `extract_metadata` succeeds.  The cached
  getters of `instance.py` are then translated literally on top of these
  fields.
* Timestamps (`datetime.now().isoformat()`) are passed in as an explicit
  `now : String` argument, and the caller-supplied `uid_hash_func` as an
  explicit `hashFn : String → String` argument (an `Instance` stores only
  whether it has such a function, `hasUidHashFunc`).
* `json.dumps`/`json.loads` are modelled as the identity on the dictionary
  level: a Python dict whose leaves are JSON-representable values is
  modelled as `PyDict` (an ordered association list, as all the dicts the
  code builds have string keys), and serialization claims are settled on
  that level.
* Gigabyte size limits (`float` in the source) are modelled as `ℚ`; the
  byte sizes themselves are exact integers in the source, and the only float
  operation, `max_size * BYTES_PER_GB`, is exact for the cap values used.
-/

/-- Python exception kinds raised by the modelled code paths.  `validationError`
stands for any exception escaping `Instance.fetch`/`Instance.validate`
(IO errors, pydicom parse errors, hint-mismatch assertions). -/
inductive PyErr where
  | attributeError
  | typeError
  | valueError
  | keyError
  | assertionError
  | validationError
  | notFound
  | lockAcquisitionError
  | lockVerificationError
  | codObjectNotFoundError
  | cleanOpOnUnlockedError
  | errorLogExistsError
  deriving DecidableEq, Repr

/-- JSON-representable Python values, the leaves of the dictionaries the
library serializes.  Numbers are modelled as integers (the serialized fields
are byte counts and offsets). -/
inductive JVal where
  | null
  | b (v : Bool)
  | n (v : Int)
  | s (v : String)
  | arr (vs : List JVal)
  | obj (fs : List (String × JVal))

/-- Ordered string-keyed Python dictionary (the shape of every dict built by
`series_metadata.py`). -/
abbrev PyDict := List (String × JVal)

/-- Membership test `key in d` on a Python dict. -/
def dictContains (d : PyDict) (k : String) : Bool :=
  d.any (fun kv => kv.1 == k)

/-- Lookup `d[k]`, `none` when the key is absent. -/
def dictGet (d : PyDict) (k : String) : Option JVal :=
  (d.find? (fun kv => kv.1 == k)).map (fun kv => kv.2)

/-- Removal of a key from a dict (dicts built by the code have unique keys). -/
def dictRemove (d : PyDict) (k : String) : PyDict :=
  d.filter (fun kv => !(kv.1 == k))

/-- Model of `d.pop(k)`: the value plus the remaining dict, `KeyError` when
the key is absent. -/
def dictPop (d : PyDict) (k : String) : Except PyErr (JVal × PyDict) :=
  match dictGet d k with
  | none => .error .keyError
  | some v => .ok (v, dictRemove d k)

/-- Model of `d[k] = v`: overwrite in place when the key exists, else append
(Python dicts preserve insertion order). -/
def dictSet (d : PyDict) (k : String) (v : JVal) : PyDict :=
  if dictContains d k then
    d.map (fun kv => if kv.1 == k then (k, v) else kv)
  else
    d ++ [(k, v)]

/-- Model of the dict merge `{**a, **b}` in `SeriesMetadata.to_dict`. -/
def dictMerge (a b : PyDict) : PyDict :=
  b.foldl (fun d kv => dictSet d kv.1 kv.2) a

/-- Executable `startswith` on strings (via their character lists). -/
def strStartsWith (s p : String) : Bool :=
  p.data.isPrefixOf s.data

/-- Model of `utils.is_remote`: the URI starts with one of the
`REMOTE_IDENTIFIERS` prefixes `http`, `s3://`, `gs://`. -/
def isRemote (uri : String) : Bool :=
  ["http", "s3://", "gs://"].any (fun p => strStartsWith uri p)

/-- Model of the `Instance` dataclass of `instance.py`.

The first block of fields are the dataclass fields themselves
(`uid_hash_func` is reduced to its presence, `hasUidHashFunc`; the actual
function is passed to the operations that use it).  The `true*`, `validateOk`,
`tarOk`, `extractOk`, `extractedMetadata` and `tarStartOffset` fields model
the environment: what the file I/O behind `validate()`,
`append_to_series_tar()` and `extract_metadata()` would produce for this
instance. -/
structure Instance where
  dicom_uri : String
  dependencies : List String
  hintSize : Option Nat
  hintCrc32c : Option String
  hintInstanceUid : Option String
  hintSeriesUid : Option String
  hintStudyUid : Option String
  hasUidHashFunc : Bool
  instMetadata : Option JVal
  customOffsetTables : Option JVal
  diffHashDupePaths : List String
  modifiedDatetime : String
  originalPath : String
  byteOffsets : Option (Nat × Nat)
  cacheInstanceUid : Option String
  cacheSeriesUid : Option String
  cacheStudyUid : Option String
  cacheSize : Option Nat
  cacheCrc32c : Option String
  trueInstanceUid : String
  trueSeriesUid : String
  trueStudyUid : String
  trueSize : Nat
  trueCrc32c : String
  validateOk : Bool
  tarOk : Bool
  extractOk : Bool
  extractedMetadata : JVal
  tarStartOffset : Nat

namespace Instance

/-- Model of `Instance.size(trust_hints_if_available=trust)`: the hint when
trusted and present, else the cached `_size`, else the value `validate()`
reads (raising when validation fails). -/
def size (i : Instance) (trust : Bool) : Except PyErr Nat :=
  match (if trust then i.hintSize else none) with
  | some n => .ok n
  | none =>
    match i.cacheSize with
    | some n => .ok n
    | none => if i.validateOk then .ok i.trueSize else .error .validationError

/-- Model of `Instance.crc32c(trust_hints_if_available=trust)`. -/
def crc32c (i : Instance) (trust : Bool) : Except PyErr String :=
  match (if trust then i.hintCrc32c else none) with
  | some c => .ok c
  | none =>
    match i.cacheCrc32c with
    | some c => .ok c
    | none => if i.validateOk then .ok i.trueCrc32c else .error .validationError

/-- Model of `Instance.instance_uid(trust_hints_if_available=trust)`. -/
def instance_uid (i : Instance) (trust : Bool) : Except PyErr String :=
  match (if trust then i.hintInstanceUid else none) with
  | some u => .ok u
  | none =>
    match i.cacheInstanceUid with
    | some u => .ok u
    | none => if i.validateOk then .ok i.trueInstanceUid else .error .validationError

/-- Model of `Instance.series_uid(trust_hints_if_available=trust)`. -/
def series_uid (i : Instance) (trust : Bool) : Except PyErr String :=
  match (if trust then i.hintSeriesUid else none) with
  | some u => .ok u
  | none =>
    match i.cacheSeriesUid with
    | some u => .ok u
    | none => if i.validateOk then .ok i.trueSeriesUid else .error .validationError

/-- Model of `Instance.study_uid(trust_hints_if_available=trust)`. -/
def study_uid (i : Instance) (trust : Bool) : Except PyErr String :=
  match (if trust then i.hintStudyUid else none) with
  | some u => .ok u
  | none =>
    match i.cacheStudyUid with
    | some u => .ok u
    | none => if i.validateOk then .ok i.trueStudyUid else .error .validationError

/-- Model of `Instance.hashed_instance_uid`: `ValueError` when the instance
has no `uid_hash_func`, else the hash of `instance_uid`. -/
def hashed_instance_uid (i : Instance) (hashFn : String → String) (trust : Bool) :
    Except PyErr String :=
  if !i.hasUidHashFunc then .error .valueError
  else (i.instance_uid trust).map hashFn

/-- Model of `Instance.hashed_series_uid`. -/
def hashed_series_uid (i : Instance) (hashFn : String → String) (trust : Bool) :
    Except PyErr String :=
  if !i.hasUidHashFunc then .error .valueError
  else (i.series_uid trust).map hashFn

/-- Model of `Instance.hashed_study_uid`. -/
def hashed_study_uid (i : Instance) (hashFn : String → String) (trust : Bool) :
    Except PyErr String :=
  if !i.hasUidHashFunc then .error .valueError
  else (i.study_uid trust).map hashFn

/-- Model of `Instance.append_diff_hash_dupe(dupe_instance)` from
`instance.py` (the variant receiving an actual `Instance`): compares the
three identity UIDs with trusted hints, raising `ValueError` on mismatch
(the comparisons short-circuit left to right, so a getter of a later pair is
only evaluated when the earlier pairs matched); skips non-remote dupes and
already-recorded paths; otherwise appends `dupe._original_path` and
refreshes `_modified_datetime`.  Returns the updated instance plus the
boolean the source returns. -/
def append_diff_hash_dupe (self dupe : Instance) (now : String) :
    Except PyErr (Instance × Bool) := do
  let siu ← self.instance_uid true
  let diu ← dupe.instance_uid true
  if siu ≠ diu then .error .valueError else do
  let sse ← self.series_uid true
  let dse ← dupe.series_uid true
  if sse ≠ dse then .error .valueError else do
  let sst ← self.study_uid true
  let dst ← dupe.study_uid true
  if sst ≠ dst then .error .valueError else
  if !(isRemote dupe.originalPath) then .ok (self, false)
  else if dupe.originalPath ∈ self.diffHashDupePaths then .ok (self, false)
  else .ok ({ self with
                diffHashDupePaths := self.diffHashDupePaths ++ [dupe.originalPath],
                modifiedDatetime := now }, true)

/-- Model of the call `preexisting_instance.append_diff_hash_dupe(instance.dicom_uri)`
made by `CODAppender._dedupe` (appender.py line 166).  The argument is a
`str`, not an `Instance`: the method body first evaluates
`self.instance_uid(trust_hints_if_available=True)` (whose own exception, if
any, propagates) and then calls `.instance_uid` on the string argument,
which raises `AttributeError`. -/
def append_diff_hash_dupe_of_uri (self : Instance) (uri : String) :
    Except PyErr Bool := do
  let _ ← self.instance_uid true
  let _ := uri
  .error .attributeError

/-- Model of `Instance.to_cod_dict_v1`: the COD metadata v1.0 record.  The
`crc32c()` and `size()` calls are the untrusted getters and are evaluated in
the order the dict literal evaluates them. -/
def to_cod_dict_v1 (i : Instance) : Except PyErr JVal := do
  let sb : JVal := match i.byteOffsets with
    | none => .null
    | some o => .n o.1
  let eb : JVal := match i.byteOffsets with
    | none => .null
    | some o => .n o.2
  let c ← i.crc32c false
  let n ← i.size false
  .ok (.obj
    [("metadata", (i.instMetadata.getD .null)),
     ("uri", .s i.dicom_uri),
     ("headers", .obj [("start_byte", sb), ("end_byte", eb)]),
     ("offset_tables", (i.customOffsetTables.getD .null)),
     ("crc32c", .s c),
     ("size", .n n),
     ("original_path", .s i.originalPath),
     ("dependencies", .arr (i.dependencies.map JVal.s)),
     ("diff_hash_dupe_paths", .arr (i.diffHashDupePaths.map JVal.s)),
     ("version", .s "1.0"),
     ("modified_datetime", .s i.modifiedDatetime)])

/-- Model of `Instance.append_to_series_tar(tar)`: obtains the (possibly
hashed) instance UID with untrusted getters, writes the member
`/instances/<uid>.dcm` (failure of `tar.add` or of the DICOM-preamble scan is
the environment flag `tarOk`), records the byte offsets
`(start, start + size)` and rewrites `dicom_uri` to point inside the tar.
Returns the updated instance and the member name added to the tar. -/
def append_to_series_tar (i : Instance) (hashFn : String → String)
    (tarName : String) : Except PyErr (Instance × String) := do
  let uid ← if i.hasUidHashFunc then i.hashed_instance_uid hashFn false
            else i.instance_uid false
  if !i.tarOk then .error .valueError
  else do
    let n ← i.size false
    let member := "/instances/" ++ uid ++ ".dcm"
    .ok ({ i with
             byteOffsets := some (i.tarStartOffset, i.tarStartOffset + n),
             dicom_uri := tarName ++ "://instances/" ++ uid ++ ".dcm" }, member)

end Instance

/-- Model of the `SeriesMetadata` dataclass of `series_metadata.py`.  The
`instances` dict is an ordered association list; `metadata_fields` holds the
custom top-level tags. -/
structure SeriesMetadata where
  study_uid : String
  series_uid : String
  hashed_uids : Bool
  instances : List (String × Instance)
  metadata_fields : PyDict
  is_sorted : Bool

namespace SeriesMetadata

/-- Model of `SeriesMetadata.to_dict`: the study/series keys are the deid
variants iff `hashed_uids`, the instances are serialized with
`to_cod_dict_v1` under `cod.instances`, and the custom `metadata_fields` are
merged on top (`{**base_dict, **self.metadata_fields}`). -/
def to_dict (m : SeriesMetadata) : Except PyErr PyDict := do
  let studyKey := if m.hashed_uids then "deid_study_uid" else "study_uid"
  let seriesKey := if m.hashed_uids then "deid_series_uid" else "series_uid"
  let instEntries ← m.instances.mapM (fun kv => do
    let d ← kv.2.to_cod_dict_v1
    pure (kv.1, d))
  let baseDict : PyDict :=
    [(studyKey, .s m.study_uid),
     (seriesKey, .s m.series_uid),
     ("cod", .obj [("instances", .obj instEntries)])]
  pure (dictMerge baseDict m.metadata_fields)

/-- Model of `SeriesMetadata.to_bytes` (and of the gzip variant
`to_gzipped_json`): `json.dumps` / gzip are modelled as the identity on the
dictionary level, so the serialized form is the dict itself. -/
def to_bytes (m : SeriesMetadata) : Except PyErr PyDict :=
  m.to_dict

/-- Model of `SeriesMetadata.from_dict` (called by `from_bytes` with
`uid_hash_func=None`).  The deid branch is chosen by the presence of
`deid_study_uid`; the `cod` key is popped (KeyError when absent) and
`cod.get("instances", {})` is read.  For every instance entry the source
calls `Instance.from_cod_dict_v1(instance_dict, uid_hash_func=uid_hash_func)`,
but `Instance.from_cod_dict_v1` in `instance.py` accepts only
`instance_dict` — the call raises `TypeError` as soon as at least one
instance entry exists.  All remaining keys become `metadata_fields`.
UID values that are not JSON strings are outside the modelled domain
(never produced by `to_dict`). -/
def from_dict (d : PyDict) : Except PyErr SeriesMetadata := do
  let (isHashed, suV, seV, d1) ←
    (if dictContains d "deid_study_uid" then do
      let p1 ← dictPop d "deid_study_uid"
      let p2 ← dictPop p1.2 "deid_series_uid"
      pure (true, p1.1, p2.1, p2.2)
    else do
      let p1 ← dictPop d "study_uid"
      let p2 ← dictPop p1.2 "series_uid"
      pure (false, p1.1, p2.1, p2.2) : Except PyErr (Bool × JVal × JVal × PyDict))
  let (codV, d2) ← dictPop d1 "cod"
  let instItems ←
    (match codV with
    | .obj fs =>
      match dictGet fs "instances" with
      | some (.obj items) => pure items
      | some _ => .error .attributeError
      | none => pure []
    | _ => .error .attributeError : Except PyErr (List (String × JVal)))
  let instances ←
    (match instItems with
    | [] => pure []
    | _ :: _ => .error .typeError : Except PyErr (List (String × Instance)))
  let su ← (match suV with
    | .s sv => pure sv
    | _ => .error .typeError : Except PyErr String)
  let se ← (match seV with
    | .s sv => pure sv
    | _ => .error .typeError : Except PyErr String)
  pure { study_uid := su, series_uid := se, hashed_uids := isHashed,
         instances := instances, metadata_fields := d2, is_sorted := false }

/-- Model of `SeriesMetadata.from_bytes` (with `json.loads` as identity on
the dict level). -/
def from_bytes (d : PyDict) : Except PyErr SeriesMetadata :=
  SeriesMetadata.from_dict d

/-- Composition `from_bytes(to_bytes(m))`, the subject of the round-trip
claim. -/
def roundTrip (m : SeriesMetadata) : Except PyErr SeriesMetadata := do
  let d ← m.to_bytes
  SeriesMetadata.from_bytes d

end SeriesMetadata

/-- Model of the object-store state the series packer touches: the lock blob
(its generation when it exists), the metadata blob (as a parsed dict), the
quarantine `error.log` blob, and the tar blob (as its member list). -/
structure BlobStore where
  lockGen : Option Nat
  metadataBlob : Option PyDict
  errorLog : Option String
  tarBlob : Option (List String)

/-- Model of the `CODObject` state relevant to the claims: identity, lock
status (`lock` is the property `self._locker is not None`), the remembered
lock generation, the in-memory metadata (`_metadata`, `none` before
loading), the two synced flags, and the local workspace (tar member list —
the empty tar of well-known size 10240 bytes is the empty member list — and
index-file existence). -/
structure CODObjectModel where
  datastore_path : String
  study_uid : String
  series_uid : String
  lock : Bool
  lockGeneration : Option Nat
  metadata : Option SeriesMetadata
  tarSynced : Bool
  metadataSynced : Bool
  localTarMembers : List String
  indexExists : Bool

namespace CODObjectModel

/-- Model of the attribute read `self.cod_object.hashed_uids` performed by
`appender.py` (lines 215 and 417).  `CODObject.__init__` in `cod_object.py`
never sets a `hashed_uids` attribute and the class defines no such property
(the repository's own tests construct `CODObject(..., hashed_uids=True)` and
the spec lists the flag, but the snapshot's constructor lacks it), so in
Python the attribute access raises `AttributeError`. -/
def hashed_uids (_c : CODObjectModel) : Except PyErr Bool :=
  .error .attributeError

/-- Model of the `tar_uri` property. -/
def tar_uri (c : CODObjectModel) : String :=
  c.datastore_path ++ "/studies/" ++ c.study_uid ++ "/series/" ++ c.series_uid ++ ".tar"

end CODObjectModel

namespace CODLocker

/-- Model of `CODLocker.verify`: raise when the lock blob is missing or when
its generation differs from the remembered one. -/
def verify (store : BlobStore) (remembered : Option Nat) : Except PyErr Unit :=
  match store.lockGen with
  | none => .error .lockVerificationError
  | some g => if some g ≠ remembered then .error .lockVerificationError else .ok ()

/-- Upload events emitted by the locker. -/
inductive LockEvent where
  | upload (ifGenerationMatch : Nat) (payload : PyDict)

/-- Model of `CODLocker.acquire` (`locker.py` lines 32-66).

Arguments beyond the store and the remembered generation model the
environment of the call:

* `snapshot` is the outcome of `self.cod_object.get_metadata()` followed by
  `to_gzipped_json()` — the metadata snapshot that becomes the lock payload
  (an `.error` is an exception escaping that fetch/encode, which propagates
  before any upload);
* `raceGen` is the generation another writer's blob would have if one is
  created between the existence check and our upload — `some` makes the
  `if_generation_match=0` precondition fail;
* `newGen` is the generation the store assigns when our upload wins.

Returns the acquisition outcome (the new remembered generation on success),
the resulting store, and the upload attempts made. -/
def acquire (store : BlobStore) (remembered : Option Nat)
    (snapshot : Except PyErr PyDict) (raceGen : Option Nat) (newGen : Nat) :
    Except PyErr (Option Nat) × BlobStore × List LockEvent :=
  match store.lockGen with
  | some g =>
    if some g ≠ remembered then (.error .lockAcquisitionError, store, [])
    else (.ok remembered, store, [])
  | none =>
    match snapshot with
    | .error e => (.error e, store, [])
    | .ok payload =>
      match raceGen with
      | some r =>
        (.error .lockAcquisitionError, { store with lockGen := some r },
         [LockEvent.upload 0 payload])
      | none =>
        (.ok (some newGen), { store with lockGen := some newGen },
         [LockEvent.upload 0 payload])

end CODLocker

/-- Blob uploads performed by `CODObject.sync` (the metadata upload is always
gzip-encoded with content-encoding `gzip`, per `_gzip_and_upload_metadata`). -/
inductive SyncEvent where
  | uploadIndex
  | uploadTar
  | uploadMetadataGzip
  deriving DecidableEq, Repr

namespace CODObject

/-- Model of `CODObject.sync` (`cod_object.py` lines 211-249).

Control flow, following the source: the `public_method` guard rejects
unlocked objects (sync accepts no `dirty` kwarg); if both synced, warn and
return; verify the lock; if the tar is dirty but the local tar is empty
(file size equal to the 10240-byte empty-tar sentinel, i.e. no members),
`return` — which leaves the function entirely, skipping the metadata branch
as well; otherwise upload index then tar and mark the tar synced; then, if
the metadata is dirty, assert it is loaded, gzip-encode and upload it and
mark it synced.  Returns the outcome paired with the trace of uploads
performed. -/
def sync (s : CODObjectModel) (store : BlobStore) :
    Except PyErr CODObjectModel × List SyncEvent :=
  if !s.lock then (.error .cleanOpOnUnlockedError, [])
  else if s.tarSynced && s.metadataSynced then (.ok s, [])
  else
    match CODLocker.verify store s.lockGeneration with
    | .error e => (.error e, [])
    | .ok _ =>
      if !s.tarSynced && s.localTarMembers.isEmpty then (.ok s, [])
      else if !s.tarSynced && !s.indexExists then (.error .assertionError, [])
      else
        let s1 : CODObjectModel :=
          if !s.tarSynced then { s with tarSynced := true } else s
        let evs1 : List SyncEvent :=
          if !s.tarSynced then [SyncEvent.uploadIndex, SyncEvent.uploadTar] else []
        if !s1.metadataSynced then
          match s1.metadata with
          | none => (.error .assertionError, evs1)
          | some m =>
            match m.to_dict with
            | .error e => (.error e, evs1)
            | .ok _ =>
              (.ok { s1 with metadataSynced := true },
               evs1 ++ [SyncEvent.uploadMetadataGzip])
        else (.ok s1, evs1)

/-- Model of `CODObject.upload_error_log` (`cod_object.py` lines 251-264),
including the `public_method` guard: the method accepts no `dirty` kwarg, so
on an unlocked object the guard raises `CleanOpOnUnlockedCODObjectError`
before the body runs.  With the lock held: if an `error.log` blob already
exists, raise `ErrorLogExistsError` (nothing is written), else upload the
message. -/
def upload_error_log (lock : Bool) (store : BlobStore) (message : String) :
    Except PyErr BlobStore :=
  if !lock then .error .cleanOpOnUnlockedError
  else
    match store.errorLog with
    | some _ => .error .errorLogExistsError
    | none => .ok { store with errorLog := some message }

/-- Actions taken by `CODObject.__exit__`. -/
inductive ExitAction where
  | releaseLock
  | logHangingLock
  | cleanupTempDir
  deriving DecidableEq, Repr

/-- Model of `CODObject.__exit__` (`cod_object.py` lines 345-358): when
locked, release the lock if no exception is propagating, else only log and
leave the lock hanging.  The temp-directory cleanup call is commented out in
the source (`# self.cleanup_temp_dir() TODO reimplement`), so no cleanup
action is ever taken. -/
def exitScope (lock : Bool) (excPropagating : Bool) : List ExitAction :=
  if lock then
    (if excPropagating then [ExitAction.logHangingLock] else [ExitAction.releaseLock])
  else []

/-- Model of the metadata load performed during `CODObject.__init__` via
`get_metadata(create_if_missing=..., dirty=True)` when `_metadata` is not
yet set: an existing metadata blob is parsed with
`SeriesMetadata.from_blob → from_bytes → from_dict`; when the blob is absent
and `create_if_missing` is true, the source evaluates
`SeriesMetadata(study_uid=..., series_uid=...)`, which raises `TypeError`
because the dataclass requires the `hashed_uids` argument; when absent and
`create_if_missing` is false, `CODObjectNotFoundError` is raised. -/
def get_metadata_at_init (store : BlobStore) (create_if_missing : Bool) :
    Except PyErr SeriesMetadata :=
  match store.metadataBlob with
  | some d => SeriesMetadata.from_bytes d
  | none =>
    if create_if_missing then .error .typeError
    else .error .codObjectNotFoundError

/-- Constructor parameters of `CODObject.__init__` that the claims touch. -/
structure InitParams where
  datastore_path : String
  study_uid : String
  series_uid : String
  lock : Bool
  create_if_missing : Bool
  override_errors : Bool

/-- Model of `CODObject.__init__` (`cod_object.py` lines 43-89): validate the
UID lengths; fail (or, with `override_errors`, delete) an existing
`error.log`; then, with `lock=True`, the source calls
`self._locker.acquire(create_if_missing=create_if_missing)` — but
`CODLocker.acquire` in `locker.py` takes no arguments, so the call raises
`TypeError` before anything else happens; with `lock=False` the metadata is
loaded without a lock.  Returns the constructed object state and the
(possibly changed) store. -/
def init (p : InitParams) (store : BlobStore) :
    Except PyErr (CODObjectModel × BlobStore) := do
  if p.study_uid.length < 10 then .error .assertionError
  else if p.series_uid.length < 10 then .error .assertionError
  else do
    let store1 ←
      (match store.errorLog with
      | some _ =>
        if p.override_errors then .ok { store with errorLog := none }
        else .error .errorLogExistsError
      | none => .ok store : Except PyErr BlobStore)
    if p.lock then
      .error .typeError
    else do
      let m ← get_metadata_at_init store1 p.create_if_missing
      .ok ({ datastore_path := p.datastore_path,
             study_uid := p.study_uid,
             series_uid := p.series_uid,
             lock := false,
             lockGeneration := none,
             metadata := some m,
             tarSynced := false,
             metadataSynced := true,
             localTarMembers := [],
             indexExists := false }, store1)

end CODObject

/-- Result type of `CODAppender.append` (the `AppendResult` namedtuple). -/
structure AppendResult where
  new : List Instance
  same : List Instance
  conflict : List Instance
  errors : List (Instance × PyErr)

/-- The `StateChange` namedtuple: each entry carries the instance, the series
metadata reference and the (deid) instance uid exactly as the source stores
them (the latter two are `None` for NEW entries). -/
structure StateChange where
  newL : List (Instance × Option SeriesMetadata × Option String)
  sameL : List (Instance × Option SeriesMetadata × Option String)
  diffL : List (Instance × Option SeriesMetadata × Option String)

namespace CODAppender

/-- Bytes per gigabyte (`BYTES_PER_GB = 1024 * 1024 * 1024`). -/
def bytesPerGB : ℚ := 1073741824

/-- Executable form of the source comparison `size > max_size * BYTES_PER_GB`
for a byte count `n` and a gigabyte cap `cap`: multiplying out the
denominator gives the integer comparison `n * cap.den > cap.num * 2^30`.
`gtCap_iff` below proves it equivalent to the rational inequality. -/
def gtCap (n : Nat) (cap : ℚ) : Bool :=
  decide ((n : ℤ) * cap.den > cap.num * 1073741824)

/-- Per-instance part of `_assert_not_too_large`: left-to-right over the
inputs, fetch the size trusting hints (an exception records the instance in
the error list and continues), drop instances whose size exceeds
`max_instance_size * BYTES_PER_GB` (recording a `ValueError`), and accumulate
the accepted sizes into `grouping_size`.  Returns
(filtered instances, errors, accepted-size sum). -/
def gateLoop (maxInstanceSize : ℚ) :
    List Instance → List Instance × List (Instance × PyErr) × Nat
  | [] => ([], [], 0)
  | i :: rest =>
    let r := gateLoop maxInstanceSize rest
    match i.size true with
    | .error e => (r.1, (i, e) :: r.2.1, r.2.2)
    | .ok n =>
      if gtCap n maxInstanceSize then
        (r.1, (i, PyErr.valueError) :: r.2.1, r.2.2)
      else
        (i :: r.1, r.2.1, n + r.2.2)

/-- Size of the pre-existing instances: `sum(instance.size() for instance in
metadata.instances.values())` when `_metadata` is set, `0` otherwise (the
`if self.cod_object._metadata:` truthiness check).  A getter exception
propagates out of the generator (it is not caught by the appender). -/
def existingSize (meta : Option SeriesMetadata) : Except PyErr Nat :=
  match meta with
  | none => .ok 0
  | some m =>
    m.instances.foldr
      (fun kv acc => do
        let n ← kv.2.size false
        let a ← acc
        pure (n + a))
      (pure 0)

/-- Model of `CODAppender._assert_not_too_large`: runs the per-instance gate,
adds the size of pre-existing instances, and raises `ValueError` when the
total exceeds `max_series_size * BYTES_PER_GB`; otherwise returns the
filtered instances and the per-instance errors (which the caller appends to
the append result). -/
def assertNotTooLarge (meta : Option SeriesMetadata) (instances : List Instance)
    (maxInstanceSize maxSeriesSize : ℚ) :
    Except PyErr (List Instance × List (Instance × PyErr)) := do
  let r := gateLoop maxInstanceSize instances
  let k ← existingSize meta
  if gtCap (r.2.2 + k) maxSeriesSize then
    .error .valueError
  else
    .ok (r.1, r.2.1)

/-- Loop of `CODAppender._dedupe`, threading the `instance_id_to_instance`
dict.  For each input: read the instance uid trusting hints (exception →
error, continue); on a repeated uid compare `instance.crc32c(trust)` with
`preexisting.crc32c()` (exceptions → error); a differing hash is a conflict,
and for remote dupes the source then calls
`preexisting.append_diff_hash_dupe(instance.dicom_uri)` — the string-argument
call that raises `AttributeError`, so the same instance is also recorded in
the error list; an equal hash is a same-duplicate; a fresh uid joins the
dict.  Returns (final dict, same, conflict, errors). -/
def dedupeLoop (dict : List (String × Instance)) :
    List Instance →
    List (String × Instance) × List Instance × List Instance × List (Instance × PyErr)
  | [] => (dict, [], [], [])
  | i :: rest =>
    match i.instance_uid true with
    | .error e =>
      let r := dedupeLoop dict rest
      (r.1, r.2.1, r.2.2.1, (i, e) :: r.2.2.2)
    | .ok uid =>
      match dict.find? (fun kv => kv.1 == uid) with
      | some pre =>
        match i.crc32c true with
        | .error e =>
          let r := dedupeLoop dict rest
          (r.1, r.2.1, r.2.2.1, (i, e) :: r.2.2.2)
        | .ok ci =>
          match pre.2.crc32c false with
          | .error e =>
            let r := dedupeLoop dict rest
            (r.1, r.2.1, r.2.2.1, (i, e) :: r.2.2.2)
          | .ok cp =>
            if ci ≠ cp then
              if isRemote i.dicom_uri then
                match pre.2.append_diff_hash_dupe_of_uri i.dicom_uri with
                | .error e =>
                  let r := dedupeLoop dict rest
                  (r.1, r.2.1, i :: r.2.2.1, (i, e) :: r.2.2.2)
                | .ok _ =>
                  let r := dedupeLoop dict rest
                  (r.1, r.2.1, i :: r.2.2.1, r.2.2.2)
              else
                let r := dedupeLoop dict rest
                (r.1, r.2.1, i :: r.2.2.1, r.2.2.2)
            else
              let r := dedupeLoop dict rest
              (r.1, i :: r.2.1, r.2.2.1, r.2.2.2)
      | none => dedupeLoop (dict ++ [(uid, i)]) rest

/-- Model of `CODAppender._dedupe`: the kept instances are the dict values in
insertion order; same/conflict/error lists are extended onto the append
result by the caller. -/
def dedupe (instances : List Instance) :
    List Instance × List Instance × List Instance × List (Instance × PyErr) :=
  let r := dedupeLoop [] instances
  (r.1.map (fun kv => kv.2), r.2.1, r.2.2.1, r.2.2.2)

/-- Model of `CODObject.assert_instance_belongs_to_cod_object` for one
instance: the hashed study/series UIDs when the instance has a
`uid_hash_func`, the plain ones otherwise (untrusted getters), compared
against the COD object's UIDs; a mismatch is an `AssertionError`. -/
def belongsCheck (hashFn : String → String) (cod : CODObjectModel)
    (i : Instance) : Except PyErr Unit := do
  let uids ←
    (if i.hasUidHashFunc then do
      let st ← i.hashed_study_uid hashFn false
      let se ← i.hashed_series_uid hashFn false
      pure (st, se)
    else do
      let st ← i.study_uid false
      let se ← i.series_uid false
      pure (st, se) : Except PyErr (String × String))
  if uids.1 = cod.study_uid ∧ uids.2 = cod.series_uid then .ok ()
  else .error .assertionError

/-- Model of `CODAppender._assert_instances_belong_to_cod_obj`: per-instance
try/except, failures become append-result errors. -/
def assertBelong (hashFn : String → String) (cod : CODObjectModel) :
    List Instance → List Instance × List (Instance × PyErr)
  | [] => ([], [])
  | i :: rest =>
    let r := assertBelong hashFn cod rest
    match belongsCheck hashFn cod i with
    | .ok _ => (i :: r.1, r.2)
    | .error e => (r.1, (i, e) :: r.2)

/-- Model of `CODAppender._get_instance_uid_for_comparison`: reads
`self.cod_object.hashed_uids` (which raises `AttributeError`, see
`CODObjectModel.hashed_uids`) to choose between the hashed and the plain
instance uid. -/
def getInstanceUidForComparison (hashFn : String → String)
    (cod : CODObjectModel) (i : Instance) (trust : Bool) :
    Except PyErr String := do
  let h ← cod.hashed_uids
  if h then i.hashed_instance_uid hashFn trust else i.instance_uid trust

/-- Loop of `_calculate_state_change` over the inputs (used when the series
metadata already has instances): per-instance try/except; uid absent from
the metadata dict → NEW; present with equal crc32c → SAME; present with a
different crc32c → DIFF. -/
def stateChangeLoop (hashFn : String → String) (cod : CODObjectModel)
    (m : SeriesMetadata) :
    List Instance → StateChange × List (Instance × PyErr)
  | [] => (⟨[], [], []⟩, [])
  | i :: rest =>
    let r := stateChangeLoop hashFn cod m rest
    match getInstanceUidForComparison hashFn cod i true with
    | .error e => (r.1, (i, e) :: r.2)
    | .ok uid =>
      match m.instances.find? (fun kv => kv.1 == uid) with
      | none => ({ r.1 with newL := (i, none, none) :: r.1.newL }, r.2)
      | some kv =>
        match i.crc32c true with
        | .error e => (r.1, (i, e) :: r.2)
        | .ok ci =>
          match kv.2.crc32c false with
          | .error e => (r.1, (i, e) :: r.2)
          | .ok cp =>
            if ci = cp then
              ({ r.1 with sameL := (i, some m, some uid) :: r.1.sameL }, r.2)
            else
              ({ r.1 with diffL := (i, some m, some uid) :: r.1.diffL }, r.2)

/-- Model of `CODAppender._calculate_state_change`: the
`self.cod_object._metadata.instances` access raises on a missing metadata
object (not caught); with an empty metadata dict every input is NEW (no
per-instance work at all); otherwise the per-instance loop runs. -/
def calculateStateChange (hashFn : String → String) (cod : CODObjectModel)
    (instances : List Instance) :
    Except PyErr (StateChange × List (Instance × PyErr)) :=
  match cod.metadata with
  | none => .error .attributeError
  | some m =>
    if m.instances.length = 0 then
      .ok (⟨instances.map (fun i => (i, none, none)), [], []⟩, [])
    else
      .ok (stateChangeLoop hashFn cod m instances)

/-- Model of `CODAppender._handle_same`: for each SAME entry the source reads
`series_metadata.instances[deid_instance_uid].dicom_uri` for the log line
(raising on a missing reference or key); the instances are then appended to
the result's `same` list. -/
def handleSame (entries : List (Instance × Option SeriesMetadata × Option String)) :
    Except PyErr (List Instance) := do
  let _ ← entries.mapM (fun t =>
    (match t.2.1 with
    | none => .error .attributeError
    | some sm =>
      match t.2.2 with
      | none => .error .keyError
      | some uid =>
        match sm.instances.find? (fun kv => kv.1 == uid) with
        | none => .error .keyError
        | some _ => .ok () : Except PyErr Unit))
  pure (entries.map (fun t => t.1))

/-- Update of one association-list entry. -/
def updateInstances (l : List (String × Instance)) (uid : String)
    (v : Instance) : List (String × Instance) :=
  l.map (fun kv => if kv.1 == uid then (uid, v) else kv)

/-- Model of `CODAppender._handle_diff`: for each DIFF entry, look up the
existing instance and call `append_diff_hash_dupe` with the dupe instance
(exceptions are not caught and propagate out of append, leaving earlier
mutations in place); when any dupe list actually changed, `_metadata_synced`
is set to `False`.  The state-change entries always reference
`self.cod_object._metadata` itself, so the mutation is applied to the COD
object's metadata. -/
def handleDiff (now : String) (cod : CODObjectModel) :
    List (Instance × Option SeriesMetadata × Option String) →
    Except PyErr (List Instance) × CODObjectModel
  | [] => (.ok [], cod)
  | t :: rest =>
    match cod.metadata with
    | none => (.error .attributeError, cod)
    | some m =>
      match t.2.2 with
      | none => (.error .keyError, cod)
      | some uid =>
        match m.instances.find? (fun kv => kv.1 == uid) with
        | none => (.error .keyError, cod)
        | some kv =>
          match kv.2.append_diff_hash_dupe t.1 now with
          | .error e => (.error e, cod)
          | .ok (ex2, changed) =>
            let m2 := { m with instances := updateInstances m.instances uid ex2 }
            let cod2 := { cod with
                            metadata := some m2,
                            metadataSynced := if changed then false else cod.metadataSynced }
            match handleDiff now cod2 rest with
            | (.error e, cod3) => (.error e, cod3)
            | (.ok confs, cod3) => (.ok (t.1 :: confs), cod3)

/-- Loop of `_create_or_append_tar`: per-instance try/except around
`append_to_series_tar`; successes extend the local tar and the
`instances_added_to_tar` list, failures the error list. -/
def createTarLoop (hashFn : String → String) (tarName : String) :
    List Instance → List Instance × List String × List (Instance × PyErr)
  | [] => ([], [], [])
  | i :: rest =>
    let r := createTarLoop hashFn tarName rest
    match i.append_to_series_tar hashFn tarName with
    | .error e => (r.1, r.2.1, (i, e) :: r.2.2)
    | .ok (i2, member) => (i2 :: r.1, member :: r.2.1, r.2.2)

/-- Model of `CODAppender._handle_create_metadata`: for each instance added
to the tar the source evaluates `self.cod_object.hashed_uids` to choose the
uid (which raises `AttributeError`, not caught — the docstring says any
exception here must bubble up), then extracts metadata, rewrites the uri and
inserts the instance into the metadata dict; finally `_metadata_synced` is
set to `False` iff any instance was added. -/
def handleCreateMetadata (hashFn : String → String) (cod : CODObjectModel) :
    List Instance → Except PyErr CODObjectModel × CODObjectModel
  | [] =>
    let cod2 := { cod with metadataSynced := true }
    (.ok cod2, cod2)
  | i :: rest =>
    match cod.hashed_uids with
    | .error e => (.error e, cod)
    | .ok h =>
      match (if h then i.hashed_instance_uid hashFn false
             else i.instance_uid false) with
      | .error e => (.error e, cod)
      | .ok uid =>
        if !i.extractOk then (.error .validationError, cod)
        else
          let outUri := cod.tar_uri ++ "://instances/" ++ uid ++ ".dcm"
          let i2 := { i with instMetadata := some i.extractedMetadata,
                             dicom_uri := outUri }
          match cod.metadata with
          | none => (.error .attributeError, cod)
          | some m =>
            let m2 := { m with
                          instances :=
                            if m.instances.any (fun kv => kv.1 == uid) then
                              updateInstances m.instances uid i2
                            else m.instances ++ [(uid, i2)] }
            let cod2 := { cod with metadata := some m2, metadataSynced := false }
            match handleCreateMetadata hashFn cod2 rest with
            | (.error e, cod3) => (.error e, cod3)
            | (.ok cod3, _) => (.ok cod3, cod3)

/-- Model of `CODAppender._handle_new` (`_handle_create_tar`,
`_create_or_append_tar`, `_create_sqlite_index`, `_handle_create_metadata`):
when the series already has instances and the object holds the lock, the
remote tar is force-fetched first (a missing tar blob raises); the new
instances are appended to the local tar (per-instance failures recorded);
zero successes raise `ValueError`; the tar becomes dirty, the sqlite index
is (re)built; then the metadata is updated — where the
`self.cod_object.hashed_uids` read raises `AttributeError` for the first
instance (see `CODObjectModel.hashed_uids`), which bubbles up. -/
def handleNew (hashFn : String → String) (cod : CODObjectModel)
    (store : BlobStore) (newInstances : List Instance) :
    Except PyErr (List Instance × List (Instance × PyErr)) × CODObjectModel :=
  match cod.metadata with
  | none => (.error .attributeError, cod)
  | some m =>
    let fetched :
        Except PyErr CODObjectModel :=
      if m.instances.length > 0 && cod.lock then
        match store.tarBlob with
        | none => .error .notFound
        | some members => .ok { cod with localTarMembers := members, tarSynced := true }
      else .ok cod
    match fetched with
    | .error e => (.error e, cod)
    | .ok cod1 =>
      let tarName := cod1.series_uid ++ ".tar"
      let r := createTarLoop hashFn tarName newInstances
      if r.1.isEmpty then (.error .valueError, cod1)
      else
        let cod2 := { cod1 with
                        localTarMembers := cod1.localTarMembers ++ r.2.1,
                        tarSynced := false,
                        indexExists := true }
        match handleCreateMetadata hashFn cod2 r.1 with
        | (.error e, cod3) => (.error e, cod3)
        | (.ok cod3, _) => (.ok (r.1, r.2.2), cod3)

/-- Model of `CODAppender.append` (`appender.py` lines 42-88): size gate,
input dedupe, ownership check, state classification, SAME handling, the two
early returns, DIFF handling, NEW handling.  Returns the outcome (the
`AppendResult` on a normal return) paired with the resulting COD object
state (unchanged when an exception is raised before any mutation). -/
def append (hashFn : String → String) (now : String) (cod : CODObjectModel)
    (store : BlobStore) (instances : List Instance)
    (maxInstanceSize maxSeriesSize : ℚ) :
    Except PyErr AppendResult × CODObjectModel :=
  match assertNotTooLarge cod.metadata instances maxInstanceSize maxSeriesSize with
  | .error e => (.error e, cod)
  | .ok (insts1, errs1) =>
    let d := dedupe insts1
    let insts2 := d.1
    let same2 := d.2.1
    let conf2 := d.2.2.1
    let errs2 := d.2.2.2
    let b := assertBelong hashFn cod insts2
    let insts3 := b.1
    let errs3 := b.2
    match calculateStateChange hashFn cod insts3 with
    | .error e => (.error e, cod)
    | .ok (sc, errs4) =>
      match handleSame sc.sameL with
      | .error e => (.error e, cod)
      | .ok sameInstances =>
        let r1 : AppendResult :=
          { new := [], same := same2 ++ sameInstances, conflict := conf2,
            errors := errs1 ++ errs2 ++ errs3 ++ errs4 }
        if sc.newL.isEmpty && sc.diffL.isEmpty then (.ok r1, cod)
        else
          match handleDiff now cod sc.diffL with
          | (.error e, cod2) => (.error e, cod2)
          | (.ok confD, cod2) =>
            let r2 := { r1 with conflict := r1.conflict ++ confD }
            if sc.newL.isEmpty then (.ok r2, cod2)
            else
              match handleNew hashFn cod2 store (sc.newL.map (fun t => t.1)) with
              | (.error e, cod3) => (.error e, cod3)
              | (.ok (newAdded, tarErrs), cod3) =>
                (.ok { r2 with new := newAdded, errors := r2.errors ++ tarErrs },
                 cod3)

end CODAppender

/-- Identity uid-hash function, used where a concrete `hashFn` is needed (all
concrete instances below have `hasUidHashFunc = false`, so it is never
applied). -/
def hashId : String → String := fun s => s

/-- Concrete instance template for the evaluation theorems: a local,
readable, valid DICOM file with no hints and no caches. -/
def baseInstance : Instance where
  dicom_uri := "/tmp/instance.dcm"
  dependencies := []
  hintSize := none
  hintCrc32c := none
  hintInstanceUid := none
  hintSeriesUid := none
  hintStudyUid := none
  hasUidHashFunc := false
  instMetadata := none
  customOffsetTables := none
  diffHashDupePaths := []
  modifiedDatetime := "2026-01-01T00:00:00"
  originalPath := "/tmp/instance.dcm"
  byteOffsets := none
  cacheInstanceUid := none
  cacheSeriesUid := none
  cacheStudyUid := none
  cacheSize := none
  cacheCrc32c := none
  trueInstanceUid := "1.2.3.4.5.6.7.8.9.50"
  trueSeriesUid := "1.2.3.4.5.6.7.8.9.21"
  trueStudyUid := "1.2.3.4.5.6.7.8.9.20"
  trueSize := 100
  trueCrc32c := "c1"
  validateOk := true
  tarOk := true
  extractOk := true
  extractedMetadata := .obj []
  tarStartOffset := 0

/-- Empty series metadata for the concrete series. -/
def mdEmpty : SeriesMetadata where
  study_uid := "1.2.3.4.5.6.7.8.9.20"
  series_uid := "1.2.3.4.5.6.7.8.9.21"
  hashed_uids := false
  instances := []
  metadata_fields := []
  is_sorted := false

/-- Concrete COD object with loaded, empty series metadata. -/
def ctx0 : CODObjectModel where
  datastore_path := "gs://datastore"
  study_uid := "1.2.3.4.5.6.7.8.9.20"
  series_uid := "1.2.3.4.5.6.7.8.9.21"
  lock := true
  lockGeneration := some 1
  metadata := some mdEmpty
  tarSynced := false
  metadataSynced := true
  localTarMembers := []
  indexExists := false

/-- Concrete store whose lock blob matches `ctx0`'s remembered generation. -/
def store0 : BlobStore where
  lockGen := some 1
  metadataBlob := none
  errorLog := none
  tarBlob := none

/-- First input of the C1 batch: belongs to a different study (its true
StudyInstanceUID mismatches the COD object), so the ownership check fails. -/
def a0 : Instance :=
  { baseInstance with
      dicom_uri := "/tmp/a.dcm"
      originalPath := "/tmp/a.dcm"
      hintSize := some 100
      hintCrc32c := some "c1"
      hintInstanceUid := some "1.2.3.4.5.6.7.8.9.50"
      trueStudyUid := "9.9.9.9.9.9.9.9.9.90" }

/-- Second input of the C1 batch: a remote file with the same instance UID as
`a0` but a different content hash — a conflict-in-input. -/
def b0 : Instance :=
  { baseInstance with
      dicom_uri := "gs://bucket/b.dcm"
      originalPath := "gs://bucket/b.dcm"
      hintSize := some 100
      hintCrc32c := some "c2"
      hintInstanceUid := some "1.2.3.4.5.6.7.8.9.50" }

/-- C1 (code_bug).  Claim: the four lists of every returned `AppendResult`
partition the input batch.  On the batch `[a0, b0]` — two instances carrying
the same instance UID with different content hashes, the second one remote —
`CODAppender._dedupe` classifies `b0` as a conflict and then calls
`preexisting_instance.append_diff_hash_dupe(instance.dicom_uri)` with a
`str` argument (appender.py line 166), which raises `AttributeError` inside
the per-instance `try`, so `b0` is recorded in `errors` as well.  The call
returns an `AppendResult` whose list lengths sum to 3 for a 2-instance
batch, with `b0` in both `conflict` and `errors`: the partition property is
violated. -/
theorem claim1_partition_violated :
    CODAppender.append hashId "t1" ctx0 store0 [a0, b0] 10 100 =
      (.ok { new := [], same := [], conflict := [b0],
             errors := [(b0, PyErr.attributeError), (a0, PyErr.assertionError)] },
       ctx0)
    ∧ [a0, b0].length = 2
    ∧ ([] : List Instance).length + ([] : List Instance).length + [b0].length +
        [(b0, PyErr.attributeError), (a0, PyErr.assertionError)].length = 3
    ∧ b0 ∈ [b0]
    ∧ b0 ∈ [(b0, PyErr.attributeError), (a0, PyErr.assertionError)].map Prod.fst := by
  refine ⟨rfl, rfl, rfl, ?_, ?_⟩ <;> simp

/-- Instance already stored in the series metadata for the C2 scenario (as
resurrected from a metadata blob: size and crc32c cached). -/
def e0 : Instance :=
  { baseInstance with
      dicom_uri := "gs://datastore/studies/1.2.3.4.5.6.7.8.9.20/series/1.2.3.4.5.6.7.8.9.21.tar://instances/1.2.3.4.5.6.7.8.9.50.dcm"
      originalPath := "gs://origin/original.dcm"
      cacheSize := some 100
      cacheCrc32c := some "c1" }

/-- Series metadata that already contains the instance UID of the batch. -/
def mdOne : SeriesMetadata :=
  { mdEmpty with instances := [("1.2.3.4.5.6.7.8.9.50", e0)] }

/-- COD object holding `mdOne`. -/
def ctx1 : CODObjectModel :=
  { ctx0 with metadata := some mdOne }

/-- Batch instance for the C2 scenario: identical to the stored `e0` (same
UID, same content hash, valid, belonging to the series). -/
def i0 : Instance :=
  { baseInstance with
      dicom_uri := "/tmp/i.dcm"
      originalPath := "/tmp/i.dcm"
      hintSize := some 100
      hintCrc32c := some "c1"
      hintInstanceUid := some "1.2.3.4.5.6.7.8.9.50" }

/-- C2 (code_bug).  Claim: appending the same batch twice in a row, with the
first call succeeding, makes the second call return `new=[]`, `conflict=[]`
and `same` equal to the full batch, changing nothing.

On the code, `CODObject` defines no `hashed_uids` attribute while
`CODAppender._get_instance_uid_for_comparison` reads it, so whenever the
series metadata is non-empty the per-instance classification loop catches an
`AttributeError` for every input and records it in `errors`.  Evaluating the
model on a series that already contains `i0` (the state after a previous
append of the batch `[i0]`): the call returns with `same = []` and
`errors = [(i0, AttributeError)]`, and leaves the state unchanged — so the
call after it (the genuine "second call") produces the same result.  The
claimed `same = <inputs> = [i0]` is violated. -/
theorem claim2_idempotent_append_broken :
    CODAppender.append hashId "t1" ctx1 store0 [i0] 10 100 =
      (.ok { new := [], same := [], conflict := [],
             errors := [(i0, PyErr.attributeError)] }, ctx1)
    ∧ ([] : List Instance) ≠ [i0] := by
  refine ⟨rfl, ?_⟩
  simp

/-- Constructor parameters for the C5 scenario: a locked construction with
valid UIDs and a clean store. -/
def p5 : CODObject.InitParams where
  datastore_path := "gs://datastore"
  study_uid := "1.2.3.4.5.6.7.8.9.20"
  series_uid := "1.2.3.4.5.6.7.8.9.21"
  lock := true
  create_if_missing := true
  override_errors := false

/-- The same parameters with `lock=False`. -/
def p5b : CODObject.InitParams :=
  { p5 with lock := false }

/-- Store with no blobs at all (fresh series). -/
def st5 : BlobStore where
  lockGen := none
  metadataBlob := none
  errorLog := none
  tarBlob := none

/-- C5 (code_bug).  Claim: with `lock=true` the lock is acquired during
construction (or a lock error raised); with `lock=false` the metadata is
loaded and, when absent with `create_if_missing=true`, an empty in-memory
metadata is created.

On the code, `CODObject.__init__` calls
`self._locker.acquire(create_if_missing=create_if_missing)` but
`CODLocker.acquire()` accepts no such keyword, so every locked construction
raises `TypeError` — no lock is acquired and no lock error is raised.  And
on the unlocked path with no metadata blob, `get_metadata` evaluates
`SeriesMetadata(study_uid=..., series_uid=...)`, which raises `TypeError`
because the dataclass field `hashed_uids` has no default — no empty metadata
is created.  Both evaluations return `TypeError`. -/
theorem claim5_init_raises_type_error :
    CODObject.init p5 st5 = .error .typeError
    ∧ CODObject.init p5b st5 = .error .typeError := by
  exact ⟨rfl, rfl⟩

/-- C9 (code_bug).  Claim: scope exit releases the lock when no exception is
propagating, leaves it hanging when one is, and cleans up the temp directory
unconditionally.

The lock handling holds, but the temp-directory cleanup call in
`CODObject.__exit__` is commented out (`# self.cleanup_temp_dir() TODO
reimplement`, cod_object.py line 357), contradicting the method's own
docstring ("release the lock, clean up temp dir"): no cleanup action is
taken in either case. -/
theorem claim9_exit_no_cleanup :
    CODObject.exitScope true false = [CODObject.ExitAction.releaseLock]
    ∧ CODObject.exitScope true true = [CODObject.ExitAction.logHangingLock]
    ∧ CODObject.ExitAction.cleanupTempDir ∉ CODObject.exitScope true false
    ∧ CODObject.ExitAction.cleanupTempDir ∉ CODObject.exitScope true true := by
  refine ⟨rfl, rfl, ?_, ?_⟩ <;> decide

/-- Sync state for the C7 counterexample: locked, lock verifiable, tar dirty
but empty, metadata dirty and loaded. -/
def s7 : CODObjectModel :=
  { ctx0 with
      metadata := some mdEmpty
      tarSynced := false
      metadataSynced := false
      localTarMembers := []
      indexExists := false }

/-- C7 counterexample.  Claim: whenever lock verification succeeds and the
metadata is dirty, sync uploads the gzipped metadata and marks it clean —
"in particular even when the tar is also dirty but empty".

On the code, the empty-tar branch of `CODObject.sync` executes a bare
`return` (cod_object.py line 230), leaving the function before the metadata
branch: on the state `s7` (lock verify succeeds, metadata dirty, tar dirty
and empty) sync performs no uploads at all and returns the state unchanged,
with `metadataSynced` still false. -/
theorem claim7_empty_tar_skips_metadata :
    s7.metadataSynced = false
    ∧ s7.lock = true
    ∧ CODLocker.verify store0 s7.lockGeneration = .ok ()
    ∧ CODObject.sync s7 store0 = (.ok s7, []) := by
  exact ⟨rfl, rfl, rfl, rfl⟩

/-- Store already carrying a quarantine marker. -/
def st10 : BlobStore :=
  { st5 with errorLog := some "previous failure" }

/-- C10 counterexample.  Claim: for every Series Object, calling
`upload_error_log` while an error-log blob exists raises
`ErrorLogExistsError`.

On an unlocked Series Object the `public_method` guard fires first (the
method accepts no `dirty` kwarg), raising
`CleanOpOnUnlockedCODObjectError` instead of `ErrorLogExistsError` — though
the existing blob is still not overwritten. -/
theorem claim10_unlocked_guard_preempts :
    CODObject.upload_error_log false st10 "boom" = .error .cleanOpOnUnlockedError
    ∧ CODObject.upload_error_log false st10 "boom" ≠ .error .errorLogExistsError := by
  refine ⟨rfl, ?_⟩
  intro h
  rw [show CODObject.upload_error_log false st10 "boom" = .error .cleanOpOnUnlockedError from rfl] at h
  injection h with h2
  exact PyErr.noConfusion h2

/-- Helper: the index-tar prefix is a sublist of the full upload order. -/
theorem syncTraceSub2 :
    List.Sublist [SyncEvent.uploadIndex, SyncEvent.uploadTar]
      [SyncEvent.uploadIndex, SyncEvent.uploadTar, SyncEvent.uploadMetadataGzip] := by
  decide

/-- Helper: the metadata-only trace is a sublist of the full upload order. -/
theorem syncTraceSub1 :
    List.Sublist [SyncEvent.uploadMetadataGzip]
      [SyncEvent.uploadIndex, SyncEvent.uploadTar, SyncEvent.uploadMetadataGzip] := by
  decide

/-- C3 (confirmed).  Claim: in every sync call, the uploads that happen occur
in the fixed order index → tar → metadata (the tar never before the index,
the metadata never before the tar).  The trace of every `sync` call is a
sublist of `[uploadIndex, uploadTar, uploadMetadataGzip]`. -/
theorem claim3_sync_upload_order (s : CODObjectModel) (store : BlobStore) :
    List.Sublist (CODObject.sync s store).2
      [SyncEvent.uploadIndex, SyncEvent.uploadTar, SyncEvent.uploadMetadataGzip] := by
  unfold CODObject.sync
  by_cases h1 : (!s.lock) = true
  · rw [if_pos h1]; exact List.nil_sublist _
  · rw [if_neg h1]
    by_cases h2 : (s.tarSynced && s.metadataSynced) = true
    · rw [if_pos h2]; exact List.nil_sublist _
    · rw [if_neg h2]
      cases hv : CODLocker.verify store s.lockGeneration with
      | error e => exact List.nil_sublist _
      | ok u =>
        cases hT : s.tarSynced with
        | false =>
          by_cases h3 : s.localTarMembers.isEmpty = true
          · simp only [hT, Bool.not_false, Bool.true_and, h3, if_true]
            exact List.nil_sublist _
          · cases hI : s.indexExists with
            | false =>
              simp [hT, h3, hI]
            | true =>
              simp only [hT, Bool.not_false, Bool.true_and, h3, Bool.not_true,
                Bool.false_eq_true, if_false, hI, if_true, Bool.and_false]
              cases hM : s.metadataSynced with
              | false =>
                simp only [hM, Bool.not_false, if_true]
                cases hmd : s.metadata with
                | none => exact syncTraceSub2
                | some m =>
                  dsimp only
                  rcases m.to_dict with e | d
                  · exact syncTraceSub2
                  · exact List.Sublist.refl _
              | true => simp only [hM, Bool.not_true, if_false]; exact syncTraceSub2
        | true =>
          simp only [hT, Bool.not_true, Bool.false_and, Bool.false_eq_true,
            if_false, if_neg]
          cases hM : s.metadataSynced with
          | false =>
            simp only [hM, Bool.not_false, if_true]
            cases hmd : s.metadata with
            | none => exact List.nil_sublist _
            | some m =>
              dsimp only
              rcases m.to_dict with e | d
              · exact List.nil_sublist _
              · exact syncTraceSub1
          | true => simp only [hM, Bool.not_true, if_false]; exact List.nil_sublist _

/-- C7 amended (proved).  In a sync call where the object is locked, lock
verification succeeds, the metadata is dirty and encodable, and the tar is
NOT both dirty and empty (with the index present whenever the tar is dirty),
the gzipped metadata is uploaded and the metadata marked clean. -/
theorem claim7_metadata_upload_when_not_empty_tar
    (s : CODObjectModel) (store : BlobStore) (m : SeriesMetadata) (d : PyDict)
    (hl : s.lock = true)
    (hv : CODLocker.verify store s.lockGeneration = .ok ())
    (hm : s.metadataSynced = false)
    (hmd : s.metadata = some m)
    (hdict : m.to_dict = .ok d)
    (hne : ¬(s.tarSynced = false ∧ s.localTarMembers = []))
    (hidx : s.tarSynced = false → s.indexExists = true) :
    ∃ s2 evs, CODObject.sync s store = (.ok s2, evs)
      ∧ s2.metadataSynced = true
      ∧ SyncEvent.uploadMetadataGzip ∈ evs := by
  cases hT : s.tarSynced with
  | true =>
    have hsync : CODObject.sync s store =
        (.ok { s with metadataSynced := true }, [SyncEvent.uploadMetadataGzip]) := by
      simp [CODObject.sync, hl, hT, hm, hv, hmd, hdict]
    exact ⟨_, _, hsync, rfl, by simp⟩
  | false =>
    have hmem : s.localTarMembers ≠ [] := fun h => hne ⟨hT, h⟩
    have hI := hidx hT
    have hEmp : s.localTarMembers.isEmpty = false := by
      cases hLM : s.localTarMembers with
      | nil => exact absurd hLM hmem
      | cons a t => rfl
    have hsync : CODObject.sync s store =
        (.ok { s with tarSynced := true, metadataSynced := true },
         [SyncEvent.uploadIndex, SyncEvent.uploadTar, SyncEvent.uploadMetadataGzip]) := by
      simp [CODObject.sync, hl, hT, hm, hv, hmd, hdict, hI, hEmp]
    exact ⟨_, _, hsync, rfl, by simp⟩

/-- Sync state whose tar is clean and whose metadata is dirty. -/
def s7b : CODObjectModel :=
  { ctx0 with tarSynced := true, metadataSynced := false }

/-- Witness for the amended C7 theorem at a concrete state. -/
theorem claim7_metadata_upload_witness :
    ∃ s2 evs, CODObject.sync s7b store0 = (.ok s2, evs)
      ∧ s2.metadataSynced = true
      ∧ SyncEvent.uploadMetadataGzip ∈ evs :=
  claim7_metadata_upload_when_not_empty_tar s7b store0 mdEmpty
    [("study_uid", .s "1.2.3.4.5.6.7.8.9.20"),
     ("series_uid", .s "1.2.3.4.5.6.7.8.9.21"),
     ("cod", .obj [("instances", .obj [])])]
    rfl rfl rfl rfl rfl (by simp [s7b, ctx0]) (by simp [s7b, ctx0])

/-- C10 amended (proved).  For a lock-holding Series Object,
`upload_error_log` raises `ErrorLogExistsError` when an error-log blob
exists (nothing is written: the model returns no store), and uploads the
message exactly when no error log exists. -/
theorem claim10_locked_error_log_guard (store : BlobStore) (message : String) :
    (∀ e, store.errorLog = some e →
      CODObject.upload_error_log true store message = .error .errorLogExistsError)
    ∧ (store.errorLog = none →
      CODObject.upload_error_log true store message =
        .ok { store with errorLog := some message }) := by
  constructor
  · intro e he
    simp [CODObject.upload_error_log, he]
  · intro he
    simp [CODObject.upload_error_log, he]

/-- Witness for the amended C10 theorem at concrete stores. -/
theorem claim10_error_log_witness :
    CODObject.upload_error_log true st10 "boom" = .error .errorLogExistsError
    ∧ CODObject.upload_error_log true st5 "boom" =
        .ok { st5 with errorLog := some "boom" } :=
  ⟨(claim10_locked_error_log_guard st10 "boom").1 "previous failure" rfl,
   (claim10_locked_error_log_guard st5 "boom").2 rfl⟩

/-- C6 (confirmed).  `CODLocker.acquire` follows the lock state machine:
an existing blob with a generation different from the remembered one (also
when none is remembered) raises `LockAcquisitionError` without uploading; an
existing blob with the remembered generation re-adopts the lock without
uploading; an absent blob leads to the metadata snapshot being uploaded with
precondition `if_generation_match=0`, remembering the returned generation on
success, and raising the stolen-during-metadata-fetch
`LockAcquisitionError` when the precondition fails. -/
theorem claim6_locker_acquire_state_machine (store : BlobStore)
    (remembered : Option Nat) (snapshot : Except PyErr PyDict)
    (raceGen : Option Nat) (newGen : Nat) :
    (∀ g, store.lockGen = some g → remembered ≠ some g →
      CODLocker.acquire store remembered snapshot raceGen newGen =
        (.error .lockAcquisitionError, store, []))
    ∧ (∀ g, store.lockGen = some g → remembered = some g →
      CODLocker.acquire store remembered snapshot raceGen newGen =
        (.ok remembered, store, []))
    ∧ (∀ p, store.lockGen = none → snapshot = .ok p → raceGen = none →
      CODLocker.acquire store remembered snapshot raceGen newGen =
        (.ok (some newGen), { store with lockGen := some newGen },
         [CODLocker.LockEvent.upload 0 p]))
    ∧ (∀ p r, store.lockGen = none → snapshot = .ok p → raceGen = some r →
      CODLocker.acquire store remembered snapshot raceGen newGen =
        (.error .lockAcquisitionError, { store with lockGen := some r },
         [CODLocker.LockEvent.upload 0 p])) := by
  refine ⟨?_, ?_, ?_, ?_⟩
  · intro g hg hne
    have hne2 : some g ≠ remembered := fun h => hne h.symm
    simp [CODLocker.acquire, hg, hne2]
  · intro g hg he
    simp [CODLocker.acquire, hg, he]
  · intro p h0 hs hr
    simp [CODLocker.acquire, h0, hs, hr]
  · intro p r h0 hs hr
    simp [CODLocker.acquire, h0, hs, hr]

/-- Witness for the C6 theorem: all four transitions of the state machine at
concrete inputs. -/
theorem claim6_locker_acquire_witness :
    CODLocker.acquire { st5 with lockGen := some 5 } none (.ok []) none 7 =
      (.error .lockAcquisitionError, { st5 with lockGen := some 5 }, [])
    ∧ CODLocker.acquire { st5 with lockGen := some 5 } (some 5) (.ok []) none 7 =
      (.ok (some 5), { st5 with lockGen := some 5 }, [])
    ∧ CODLocker.acquire st5 none (.ok []) none 7 =
      (.ok (some 7), { st5 with lockGen := some 7 }, [CODLocker.LockEvent.upload 0 []])
    ∧ CODLocker.acquire st5 none (.ok []) (some 9) 7 =
      (.error .lockAcquisitionError, { st5 with lockGen := some 9 },
       [CODLocker.LockEvent.upload 0 []]) :=
  ⟨(claim6_locker_acquire_state_machine _ _ _ _ _).1 5 rfl (by simp),
   (claim6_locker_acquire_state_machine _ _ _ _ _).2.1 5 rfl rfl,
   (claim6_locker_acquire_state_machine _ _ _ _ _).2.2.1 [] rfl rfl rfl,
   (claim6_locker_acquire_state_machine _ _ _ _ _).2.2.2 [] 9 rfl rfl rfl⟩

/-- C4 counterexample.  Claim: `from_bytes(to_bytes(m)) == m` for every
Series Metadata `m`, custom tags included.  On a metadata value holding one
instance (`mdOne`, whose instance has its crc32c and size cached so that
serialization succeeds), deserialization raises `TypeError`: `from_dict`
calls `Instance.from_cod_dict_v1(instance_dict, uid_hash_func=...)` but
`from_cod_dict_v1` accepts no `uid_hash_func` keyword.  The round trip is
`TypeError`, not `m`. -/
theorem claim4_round_trip_cex :
    SeriesMetadata.roundTrip mdOne = .error .typeError
    ∧ SeriesMetadata.roundTrip mdOne ≠ .ok mdOne := by
  refine ⟨rfl, ?_⟩
  intro h
  rw [show SeriesMetadata.roundTrip mdOne = .error .typeError from rfl] at h
  exact Except.noConfusion h

/-- Helper: containment distributes over dict append. -/
theorem dictContains_append (a b : PyDict) (k : String) :
    dictContains (a ++ b) k = (dictContains a k || dictContains b k) := by
  simp [dictContains]

/-- Helper: a dict none of whose keys is `k` does not contain `k`. -/
theorem dictContains_eq_false (b : PyDict) (k : String)
    (h : ∀ kv ∈ b, kv.1 ≠ k) : dictContains b k = false := by
  simp only [dictContains, List.any_eq_false]
  intro kv hkv
  simpa using h kv hkv

/-- Helper: removing an absent key leaves a dict unchanged. -/
theorem dictRemove_eq_self (b : PyDict) (k : String)
    (h : ∀ kv ∈ b, kv.1 ≠ k) : dictRemove b k = b := by
  refine List.filter_eq_self.mpr ?_
  intro kv hkv
  simpa using h kv hkv

/-- Helper: setting a fresh key appends it. -/
theorem dictSet_fresh (d : PyDict) (k : String) (v : JVal)
    (h : dictContains d k = false) : dictSet d k v = d ++ [(k, v)] := by
  simp [dictSet, h]

/-- Helper: merging a dict whose keys are fresh and pairwise distinct is
plain concatenation. -/
theorem dictMerge_fresh (b : PyDict) : ∀ a : PyDict,
    (∀ kv ∈ b, dictContains a kv.1 = false) →
    (b.map Prod.fst).Nodup →
    dictMerge a b = a ++ b := by
  induction b with
  | nil =>
    intro a _ _
    simp [dictMerge]
  | cons kv rest ih =>
    intro a hfresh hnodup
    have h1 : dictContains a kv.1 = false := hfresh kv (by simp)
    have hmap : List.map Prod.fst (kv :: rest) = kv.1 :: rest.map Prod.fst := rfl
    rw [hmap] at hnodup
    have hnd := List.nodup_cons.mp hnodup
    have step : dictMerge a (kv :: rest) = dictMerge (a ++ [(kv.1, kv.2)]) rest := by
      simp [dictMerge, dictSet_fresh a kv.1 kv.2 h1]
    rw [step, ih (a ++ [(kv.1, kv.2)])]
    · simp
    · intro kv2 hkv2
      rw [dictContains_append]
      have hA : dictContains a kv2.1 = false := hfresh kv2 (by simp [hkv2])
      have hB : dictContains [(kv.1, kv.2)] kv2.1 = false := by
        refine dictContains_eq_false _ _ ?_
        intro kv3 hkv3
        have hkv3e : kv3 = (kv.1, kv.2) := by simpa using hkv3
        subst hkv3e
        intro he
        apply hnd.1
        have he2 : kv.1 = kv2.1 := he
        rw [he2]
        exact List.mem_map_of_mem Prod.fst hkv2
      rw [hA, hB]
      rfl
    · exact hnd.2

/-- C4 amended (proved).  For Series Metadata without instances, with the
default `is_sorted = false`, whose custom tag keys are pairwise distinct and
avoid the reserved top-level keys (`study_uid`, `series_uid`,
`deid_study_uid`, `deid_series_uid`, `cod`), the round trip
`from_bytes(to_bytes(m))` returns `m` with the custom tags preserved.
(Metadata with instances fails to deserialize — see the counterexample —
`is_sorted` is not serialized at all, and colliding custom keys overwrite
the reserved entries in `{**base_dict, **metadata_fields}`.) -/
theorem claim4_round_trip_no_instances (su se : String) (hashed : Bool)
    (tags : PyDict)
    (hnodup : (tags.map Prod.fst).Nodup)
    (hres : ∀ kv ∈ tags,
      kv.1 ∉ (["study_uid", "series_uid", "deid_study_uid", "deid_series_uid",
               "cod"] : List String)) :
    SeriesMetadata.roundTrip
        { study_uid := su, series_uid := se, hashed_uids := hashed,
          instances := [], metadata_fields := tags, is_sorted := false } =
      .ok { study_uid := su, series_uid := se, hashed_uids := hashed,
            instances := [], metadata_fields := tags, is_sorted := false } := by
  have hne : ∀ kv ∈ tags,
      kv.1 ≠ "study_uid" ∧ kv.1 ≠ "series_uid" ∧ kv.1 ≠ "deid_study_uid"
      ∧ kv.1 ≠ "deid_series_uid" ∧ kv.1 ≠ "cod" := by
    intro kv hkv
    have h := hres kv hkv
    simpa [not_or] using h
  have hany : ∀ k : String, (∀ kv ∈ tags, kv.1 ≠ k) →
      tags.any (fun kv => kv.1 == k) = false := by
    intro k hk
    have := dictContains_eq_false tags k hk
    simpa [dictContains] using this
  have hfil : ∀ k : String, (∀ kv ∈ tags, kv.1 ≠ k) →
      tags.filter (fun kv => !(kv.1 == k)) = tags := by
    intro k hk
    have := dictRemove_eq_self tags k hk
    simpa [dictRemove] using this
  have ha3 := hany "deid_study_uid" (fun kv hkv => (hne kv hkv).2.2.1)
  have hf1 := hfil "study_uid" (fun kv hkv => (hne kv hkv).1)
  have hf2 := hfil "series_uid" (fun kv hkv => (hne kv hkv).2.1)
  have hf3 := hfil "deid_study_uid" (fun kv hkv => (hne kv hkv).2.2.1)
  have hf4 := hfil "deid_series_uid" (fun kv hkv => (hne kv hkv).2.2.2.1)
  have hf5 := hfil "cod" (fun kv hkv => (hne kv hkv).2.2.2.2)
  cases hashed with
  | false =>
    have hfresh : ∀ kv ∈ tags,
        dictContains [("study_uid", JVal.s su), ("series_uid", JVal.s se),
          ("cod", JVal.obj [("instances", JVal.obj [])])] kv.1 = false := by
      intro kv hkv
      obtain ⟨h1, h2, _, _, h5⟩ := hne kv hkv
      simp [dictContains, beq_eq_false_iff_ne]
      exact ⟨Ne.symm h1, Ne.symm h2, Ne.symm h5⟩
    have hmerge := dictMerge_fresh tags
      [("study_uid", JVal.s su), ("series_uid", JVal.s se),
       ("cod", JVal.obj [("instances", JVal.obj [])])] hfresh hnodup
    have hto : SeriesMetadata.to_dict
        { study_uid := su, series_uid := se, hashed_uids := false,
          instances := [], metadata_fields := tags, is_sorted := false } =
        .ok (dictMerge [("study_uid", JVal.s su), ("series_uid", JVal.s se),
          ("cod", JVal.obj [("instances", JVal.obj [])])] tags) := rfl
    have hstep : SeriesMetadata.roundTrip
        { study_uid := su, series_uid := se, hashed_uids := false,
          instances := [], metadata_fields := tags, is_sorted := false } =
        SeriesMetadata.from_dict (dictMerge [("study_uid", JVal.s su),
          ("series_uid", JVal.s se),
          ("cod", JVal.obj [("instances", JVal.obj [])])] tags) := by
      simp [SeriesMetadata.roundTrip, SeriesMetadata.to_bytes,
            SeriesMetadata.from_bytes, hto, bind, Except.bind]
    rw [hstep, hmerge]
    simp [SeriesMetadata.from_dict, dictPop, dictGet, dictRemove, dictContains,
          ha3, hf1, hf2, hf5, bind, Except.bind, Functor.map, Except.map, pure,
          Except.pure]
  | true =>
    have hfresh : ∀ kv ∈ tags,
        dictContains [("deid_study_uid", JVal.s su), ("deid_series_uid", JVal.s se),
          ("cod", JVal.obj [("instances", JVal.obj [])])] kv.1 = false := by
      intro kv hkv
      obtain ⟨_, _, h3, h4, h5⟩ := hne kv hkv
      simp [dictContains, beq_eq_false_iff_ne]
      exact ⟨Ne.symm h3, Ne.symm h4, Ne.symm h5⟩
    have hmerge := dictMerge_fresh tags
      [("deid_study_uid", JVal.s su), ("deid_series_uid", JVal.s se),
       ("cod", JVal.obj [("instances", JVal.obj [])])] hfresh hnodup
    have hto : SeriesMetadata.to_dict
        { study_uid := su, series_uid := se, hashed_uids := true,
          instances := [], metadata_fields := tags, is_sorted := false } =
        .ok (dictMerge [("deid_study_uid", JVal.s su), ("deid_series_uid", JVal.s se),
          ("cod", JVal.obj [("instances", JVal.obj [])])] tags) := rfl
    have hstep : SeriesMetadata.roundTrip
        { study_uid := su, series_uid := se, hashed_uids := true,
          instances := [], metadata_fields := tags, is_sorted := false } =
        SeriesMetadata.from_dict (dictMerge [("deid_study_uid", JVal.s su),
          ("deid_series_uid", JVal.s se),
          ("cod", JVal.obj [("instances", JVal.obj [])])] tags) := by
      simp [SeriesMetadata.roundTrip, SeriesMetadata.to_bytes,
            SeriesMetadata.from_bytes, hto, bind, Except.bind]
    rw [hstep, hmerge]
    simp [SeriesMetadata.from_dict, dictPop, dictGet, dictRemove, dictContains,
          hf3, hf4, hf5, bind, Except.bind, Functor.map, Except.map, pure,
          Except.pure]

/-- Witness for the amended C4 theorem: a metadata value with custom tags and
no instances round-trips. -/
theorem claim4_round_trip_witness :
    SeriesMetadata.roundTrip
        { study_uid := "1.2.3.4.5.6.7.8.9.20", series_uid := "1.2.3.4.5.6.7.8.9.21",
          hashed_uids := false, instances := [],
          metadata_fields := [("thumbnail", .obj [("version", .s "1")]),
                              ("note", .s "custom")],
          is_sorted := false } =
      .ok { study_uid := "1.2.3.4.5.6.7.8.9.20", series_uid := "1.2.3.4.5.6.7.8.9.21",
            hashed_uids := false, instances := [],
            metadata_fields := [("thumbnail", .obj [("version", .s "1")]),
                                ("note", .s "custom")],
            is_sorted := false } :=
  claim4_round_trip_no_instances "1.2.3.4.5.6.7.8.9.20" "1.2.3.4.5.6.7.8.9.21"
    false
    [("thumbnail", .obj [("version", .s "1")]), ("note", .s "custom")]
    (by simp) (by simp)

/-- The integer cap comparison agrees with the source's rational comparison
`size > cap * BYTES_PER_GB`. -/
theorem gtCap_iff (n : Nat) (cap : ℚ) :
    CODAppender.gtCap n cap = true ↔ ((n : ℚ) > cap * CODAppender.bytesPerGB) := by
  unfold CODAppender.gtCap CODAppender.bytesPerGB
  rw [decide_eq_true_iff, gt_iff_lt, gt_iff_lt]
  conv_rhs => rw [← Rat.num_div_den cap]
  rw [div_mul_eq_mul_div, div_lt_iff₀ (by positivity : (0 : ℚ) < (cap.den : ℚ))]
  constructor <;> intro h <;> exact_mod_cast h

/-- Acceptance predicate of the size gate: the trusted size is available and
does not exceed the per-instance cap. -/
def sizeOk (maxInstanceSize : ℚ) (i : Instance) : Bool :=
  match i.size true with
  | .ok n => !CODAppender.gtCap n maxInstanceSize
  | .error _ => false

/-- Error produced by the size gate for one instance, if any. -/
def gateError (maxInstanceSize : ℚ) (i : Instance) : Option (Instance × PyErr) :=
  match i.size true with
  | .error e => some (i, e)
  | .ok n =>
    if CODAppender.gtCap n maxInstanceSize then some (i, PyErr.valueError) else none

/-- The gate keeps exactly the inputs accepted by `sizeOk`, in order. -/
theorem gateLoop_fst (mI : ℚ) (l : List Instance) :
    (CODAppender.gateLoop mI l).1 = l.filter (sizeOk mI) := by
  induction l with
  | nil => rfl
  | cons i rest ih =>
    simp only [CODAppender.gateLoop]
    cases hs : i.size true with
    | error e => simp [List.filter, sizeOk, hs, ih]
    | ok n =>
      by_cases hc : CODAppender.gtCap n mI
      · simp [List.filter, sizeOk, hs, hc, ih]
      · simp [List.filter, sizeOk, hs, hc, ih]

/-- The gate records exactly the per-instance errors of `gateError`, in
order. -/
theorem gateLoop_errors (mI : ℚ) (l : List Instance) :
    (CODAppender.gateLoop mI l).2.1 = l.filterMap (gateError mI) := by
  induction l with
  | nil => rfl
  | cons i rest ih =>
    simp only [CODAppender.gateLoop]
    cases hs : i.size true with
    | error e => simp [List.filterMap, gateError, hs, ih]
    | ok n =>
      by_cases hc : CODAppender.gtCap n mI
      · simp [List.filterMap, gateError, hs, hc, ih]
      · simp [List.filterMap, gateError, hs, hc, ih]

/-- C8 (confirmed).  The size gate of append: (a) when
`_assert_not_too_large` returns, the surviving batch is exactly the inputs
whose trusted size is available and within the per-instance cap, the error
list is exactly the per-instance failures — in particular every input whose
size exceeds the cap is recorded with a `ValueError` and dropped while the
remaining inputs are still processed; (b) when the accepted sizes plus the
size of the pre-existing instances exceed the per-series cap, `append`
raises `ValueError` and returns with the COD object state unchanged (no
writes). -/
theorem claim8_size_gate (hashFn : String → String) (now : String)
    (cod : CODObjectModel) (store : BlobStore) (instances : List Instance)
    (mI mS : ℚ) :
    (∀ f e, CODAppender.assertNotTooLarge cod.metadata instances mI mS = .ok (f, e) →
      f = instances.filter (sizeOk mI)
      ∧ e = instances.filterMap (gateError mI)
      ∧ (∀ i ∈ instances, ∀ n, i.size true = .ok n →
          ((n : ℚ) > mI * CODAppender.bytesPerGB) →
          ((i, PyErr.valueError) ∈ e ∧ i ∉ f)))
    ∧ (∀ k, CODAppender.existingSize cod.metadata = .ok k →
      (((CODAppender.gateLoop mI instances).2.2 + k : ℕ) : ℚ) >
          mS * CODAppender.bytesPerGB →
      CODAppender.append hashFn now cod store instances mI mS =
        (.error .valueError, cod)) := by
  constructor
  · intro f e hok
    have hfe : f = (CODAppender.gateLoop mI instances).1
        ∧ e = (CODAppender.gateLoop mI instances).2.1 := by
      unfold CODAppender.assertNotTooLarge at hok
      cases hex : CODAppender.existingSize cod.metadata with
      | error er => rw [hex] at hok; exact Except.noConfusion hok
      | ok k =>
        rw [hex] at hok
        by_cases hser : CODAppender.gtCap ((CODAppender.gateLoop mI instances).2.2 + k) mS
        · simp [bind, Except.bind, hser] at hok
        · simp [bind, Except.bind, hser] at hok
          exact ⟨hok.1.symm, hok.2.symm⟩
    obtain ⟨hf, he⟩ := hfe
    rw [hf, he, gateLoop_fst, gateLoop_errors]
    refine ⟨rfl, rfl, ?_⟩
    intro i hi n hn hover
    have hcap : CODAppender.gtCap n mI = true := (gtCap_iff n mI).mpr hover
    constructor
    · refine List.mem_filterMap.mpr ⟨i, hi, ?_⟩
      simp [gateError, hn, hcap]
    · intro hmem
      have := (List.mem_filter.mp hmem).2
      simp [sizeOk, hn, hcap] at this
  · intro k hex hover
    have hser : CODAppender.gtCap ((CODAppender.gateLoop mI instances).2.2 + k) mS = true :=
      (gtCap_iff _ mS).mpr (by exact_mod_cast hover)
    have hgate : CODAppender.assertNotTooLarge cod.metadata instances mI mS =
        .error .valueError := by
      unfold CODAppender.assertNotTooLarge
      rw [hex]
      simp [bind, Except.bind, hser]
    unfold CODAppender.append
    rw [hgate]

/-- Concrete overlarge instance: a 2 GiB size hint. -/
def iBig : Instance :=
  { baseInstance with
      dicom_uri := "/tmp/big.dcm"
      originalPath := "/tmp/big.dcm"
      hintSize := some 2147483648 }

/-- Witness for the C8 theorem: with a 1 GB per-instance cap the 2 GiB
instance is recorded as a `ValueError` and dropped; with a 1 GB per-series
cap and a 100 GB per-instance cap the same batch makes append raise and
leave the state unchanged. -/
theorem claim8_size_gate_witness :
    ((iBig, PyErr.valueError) ∈ [(iBig, PyErr.valueError)]
      ∧ iBig ∉ ([] : List Instance))
    ∧ CODAppender.append hashId "t1" ctx0 store0 [iBig] 100 1 =
        (.error .valueError, ctx0) := by
  constructor
  · exact ((claim8_size_gate hashId "t1" ctx0 store0 [iBig] 1 100).1
      [] [(iBig, PyErr.valueError)] rfl).2.2 iBig (by simp) 2147483648 rfl
      (by norm_num [CODAppender.bytesPerGB])
  · exact (claim8_size_gate hashId "t1" ctx0 store0 [iBig] 100 1).2 0 rfl
      (by show ((2147483648 + 0 : ℕ) : ℚ) > 1 * CODAppender.bytesPerGB
          norm_num [CODAppender.bytesPerGB])
